import Mathlib

/-!
Verification development for the `node-intervals-icu` TypeScript client.

This file shallowly embeds the transport/error/rate-limit boundary layer of
the repository: the `RateLimitTracker` (src/core/rate-limit-tracker.ts), the
`ErrorHandler` (src/core/error-handler.ts), the header construction of
`AxiosHttpClient` (src/core/axios-http-client.ts), the duplicated logic in
`IntervalsClient` (src/client.ts), and the athlete-id defaulting of the
resource services.

JavaScript numbers that arise here (the results of `parseInt` on header
strings) are modelled exactly as either `NaN` or a mathematical integer;
the float range plays no role at the scales the code manipulates, except
for the ECMAScript time-value clip which is modelled explicitly.
-/

set_option autoImplicit false

namespace IntervalsIcu

/-- A JavaScript number as produced by `parseInt`: either `NaN` or an integer. -/
inductive JSNum where
  | nan : JSNum
  | int : Int → JSNum
deriving DecidableEq

/-- Multiplication of a JS number by an integer constant; `NaN * k = NaN`. -/
def JSNum.mulInt : JSNum → Int → JSNum
  | .nan, _ => .nan
  | .int n, k => .int (n * k)

/-- Digits to a natural number, most significant first. -/
def natOfDigits (ds : List Char) : Nat :=
  ds.foldl (fun n c => n * 10 + (c.toNat - 48)) 0

/-- JavaScript `parseInt(s, 10)`: skip leading whitespace, optional sign,
then the longest prefix of decimal digits; `NaN` when no digit is found. -/
def parseIntJS (s : String) : JSNum :=
  let cs := s.toList.dropWhile Char.isWhitespace
  let signAndRest : Int × List Char :=
    match cs with
    | '-' :: rest => (-1, rest)
    | '+' :: rest => (1, rest)
    | _ => (1, cs)
  let ds := signAndRest.2.takeWhile Char.isDigit
  if ds.isEmpty then .nan
  else .int (signAndRest.1 * (natOfDigits ds : Int))

/-- A JavaScript `Date`: its ECMAScript time value, `NaN` for an Invalid Date. -/
structure JSDate where
  ms : JSNum
deriving DecidableEq

/-- `new Date(n)` with the ECMAScript TimeClip: time values beyond
±8.64e15 milliseconds, and `NaN`, give an Invalid Date. -/
def newDate : JSNum → JSDate
  | .nan => ⟨.nan⟩
  | .int n => if n.natAbs ≤ 8640000000000000 then ⟨.int n⟩ else ⟨.nan⟩

/-- A header value as seen through the dynamic `typeof` test in the source:
either a string, or some non-string value. -/
inductive HeaderValue where
  | str : String → HeaderValue
  | other : HeaderValue
deriving DecidableEq

/-- A header map; absent keys model `undefined` lookups. -/
structure HttpHeaders where
  entries : List (String × HeaderValue)
deriving DecidableEq

/-- `headers[k]` as an `Option`: `none` models `undefined`. -/
def HttpHeaders.get (h : HttpHeaders) (k : String) : Option HeaderValue :=
  h.entries.lookup k

/-- The state of `RateLimitTracker` (src/core/rate-limit-tracker.ts):
two optional fields, both `undefined` at construction. -/
structure RateLimitTracker where
  remaining : Option JSNum := none
  reset : Option JSDate := none
deriving DecidableEq

/-- The tracker as built by `new RateLimitTracker()`: both fields unset. -/
def RateLimitTracker.init : RateLimitTracker := {}

/-- `RateLimitTracker.updateFromHeaders`: reads the two rate-limit headers;
whenever a value is a string (`typeof === 'string'`), stores the `parseInt`
of it — for `reset`, `new Date(parseInt(reset, 10) * 1000)`. -/
def RateLimitTracker.updateFromHeaders (t : RateLimitTracker) (headers : HttpHeaders) :
    RateLimitTracker :=
  let remaining := headers.get "x-ratelimit-remaining"
  let reset := headers.get "x-ratelimit-reset"
  let t1 :=
    match remaining with
    | some (.str s) => { t with remaining := some (parseIntJS s) }
    | _ => t
  match reset with
  | some (.str s) => { t1 with reset := some (newDate ((parseIntJS s).mulInt 1000)) }
  | _ => t1

/-- `RateLimitTracker.getRemaining`. -/
def RateLimitTracker.getRemaining (t : RateLimitTracker) : Option JSNum :=
  t.remaining

/-- `RateLimitTracker.getReset`. -/
def RateLimitTracker.getReset (t : RateLimitTracker) : Option JSDate :=
  t.reset

/-- The response interceptor of `AxiosHttpClient.setupInterceptors` forwards
every observed response's headers to the tracker, in arrival order. -/
def observeResponses (t : RateLimitTracker) (hs : List HttpHeaders) : RateLimitTracker :=
  hs.foldl RateLimitTracker.updateFromHeaders t

/-- Civil calendar date from a count of days since 1970-01-01 (proleptic
Gregorian): year, month, day. -/
def civilFromDays (z0 : Int) : Int × Nat × Nat :=
  let z := z0 + 719468
  let era : Int := Int.fdiv z 146097
  let doe : Nat := (z - era * 146097).toNat
  let yoe : Nat := (doe - doe / 1460 + doe / 36524 - doe / 146096) / 365
  let y : Int := (yoe : Int) + era * 400
  let doy : Nat := doe - (365 * yoe + yoe / 4 - yoe / 100)
  let mp : Nat := (5 * doy + 2) / 153
  let d : Nat := doy - (153 * mp + 2) / 5 + 1
  let m : Nat := if mp < 10 then mp + 3 else mp - 9
  (y + (if m ≤ 2 then 1 else 0), m, d)

/-- Zero-pad a natural number to two digits. -/
def pad2 (n : Nat) : String :=
  if n < 10 then "0" ++ toString n else toString n

/-- Zero-pad a natural number to three digits. -/
def pad3 (n : Nat) : String :=
  if n < 10 then "00" ++ toString n
  else if n < 100 then "0" ++ toString n
  else toString n

/-- Zero-pad a natural number to four digits. -/
def pad4 (n : Nat) : String :=
  if n < 10 then "000" ++ toString n
  else if n < 100 then "00" ++ toString n
  else if n < 1000 then "0" ++ toString n
  else toString n

/-- Zero-pad a natural number to five digits. -/
def pad5 (n : Nat) : String :=
  if n < 10000 then "0" ++ pad4 n else toString n

/-- Zero-pad a natural number to six digits. -/
def pad6 (n : Nat) : String :=
  if n < 100000 then "0" ++ pad5 n else toString n

/-- The year component of `toISOString`: four digits for years 0–9999,
otherwise the ECMAScript expanded form with a sign and six digits. -/
def isoYear (y : Int) : String :=
  if 0 ≤ y ∧ y ≤ 9999 then pad4 y.toNat
  else if y < 0 then "-" ++ pad6 y.natAbs
  else "+" ++ pad6 y.toNat

/-- Render a valid time value (milliseconds since the epoch) the way
`Date.prototype.toISOString` does: `YYYY-MM-DDTHH:mm:ss.sssZ`. -/
def isoOfMs (ms : Int) : String :=
  let days : Int := Int.fdiv ms 86400000
  let msod : Nat := (Int.fmod ms 86400000).toNat
  let ymd := civilFromDays days
  let hh := msod / 3600000
  let mi := msod % 3600000 / 60000
  let ss := msod % 60000 / 1000
  let msec := msod % 1000
  isoYear ymd.1 ++ "-" ++ pad2 ymd.2.1 ++ "-" ++ pad2 ymd.2.2 ++ "T" ++
    pad2 hh ++ ":" ++ pad2 mi ++ ":" ++ pad2 ss ++ "." ++ pad3 msec ++ "Z"

/-- `Date.prototype.toISOString`: renders a valid date, throws a
`RangeError` on an Invalid Date. -/
def JSDate.toISOString : JSDate → Except String String
  | ⟨.nan⟩ => .error "Invalid time value"
  | ⟨.int ms⟩ => .ok (isoOfMs ms)

/-- The base64 alphabet. -/
def b64Char (n : Nat) : Char :=
  "ABCDEFGHIJKLMNOPQRSTUVWXYZabcdefghijklmnopqrstuvwxyz0123456789+/".toList.getD n 'A'

/-- Standard base64 of a byte sequence, with `=` padding, as produced by
`Buffer.from(s).toString('base64')` and `window.btoa`. -/
def base64Encode : List Nat → String
  | [] => ""
  | [a] => String.mk [b64Char (a / 4), b64Char (a % 4 * 16), '=', '=']
  | [a, b] => String.mk [b64Char (a / 4), b64Char (a % 4 * 16 + b / 16),
      b64Char (b % 16 * 4), '=']
  | a :: b :: c :: rest =>
      String.mk [b64Char (a / 4), b64Char (a % 4 * 16 + b / 16),
        b64Char (b % 16 * 4 + c / 64), b64Char (c % 64)] ++ base64Encode rest

/-- UTF-8 bytes of a string, as `Buffer.from(s)` produces them. -/
def utf8Bytes (s : String) : List Nat :=
  s.toList.flatMap fun ch =>
    let c := ch.toNat
    if c < 128 then [c]
    else if c < 2048 then [192 + c / 64, 128 + c % 64]
    else if c < 65536 then [224 + c / 4096, 128 + c / 64 % 64, 128 + c % 64]
    else [240 + c / 262144, 128 + c / 4096 % 64, 128 + c / 64 % 64, 128 + c % 64]

/-- JavaScript `x || y` on a possibly-undefined string: the empty string is
falsy, so it falls through to the default like `undefined` does. -/
def jsOrStr (a : Option String) (b : String) : String :=
  match a with
  | some s => if s = "" then b else s
  | none => b

/-- JavaScript `x || y` on a possibly-undefined number: `0` is falsy. -/
def jsOrInt (a : Option Int) (b : Int) : Int :=
  match a with
  | some n => if n = 0 then b else n
  | none => b

/-- The part of an Axios response the boundary layer reads: the HTTP status,
the response body's optional `message` field, and the response headers. -/
structure AxiosResponse where
  status : Nat
  dataMessage : Option String
  headers : HttpHeaders
deriving DecidableEq

/-- The part of an `AxiosError` the boundary layer reads: an optional
response, an optional transport-level failure code, and the error message
(a JavaScript `Error`'s `message` is always a string, possibly empty). -/
structure AxiosError where
  response : Option AxiosResponse
  code : Option String
  message : String
deriving DecidableEq

/-- The observable fields of an `IntervalsAPIError`. -/
structure IntervalsAPIError where
  message : String
  status : Option Nat
  code : Option String
deriving DecidableEq

/-- `ErrorHandler.handleError` (src/core/error-handler.ts). The result is in
`Except` because the 429 branch calls `toISOString` on the tracker's stored
reset date, which throws a `RangeError` on an Invalid Date. -/
def ErrorHandler.handleError (error : AxiosError) (rateLimitTracker : RateLimitTracker) :
    Except String IntervalsAPIError :=
  match error.response with
  | some response =>
    let status := response.status
    let message := jsOrStr response.dataMessage error.message
    if status = 429 then
      match rateLimitTracker.getReset with
      | some resetTime =>
        match resetTime.toISOString with
        | .error e => .error e
        | .ok iso =>
          .ok ⟨"Rate limit exceeded. " ++ ("Resets at " ++ iso), some status,
            some "RATE_LIMIT_EXCEEDED"⟩
      | none =>
        .ok ⟨"Rate limit exceeded. " ++ "", some status, some "RATE_LIMIT_EXCEEDED"⟩
    else if status = 401 then
      .ok ⟨"Invalid API key or authentication failed", some status, some "AUTH_FAILED"⟩
    else if status = 404 then
      .ok ⟨"Resource not found", some status, some "NOT_FOUND"⟩
    else
      .ok ⟨message, some status, none⟩
  | none =>
    if error.code = some "ECONNABORTED" then
      .ok ⟨"Request timeout", none, some "TIMEOUT"⟩
    else
      .ok ⟨jsOrStr (some error.message) "Unknown error occurred", none, none⟩

/-- The rate-limit fields of the monolithic `IntervalsClient` (src/client.ts),
which duplicates the tracker logic in private instance fields. -/
structure ClientRateState where
  rateLimitRemaining : Option JSNum := none
  rateLimitReset : Option JSDate := none
deriving DecidableEq

/-- `IntervalsClient.updateRateLimitInfo` (src/client.ts): identical parsing
to `RateLimitTracker.updateFromHeaders`. -/
def IntervalsClient.updateRateLimitInfo (st : ClientRateState) (headers : HttpHeaders) :
    ClientRateState :=
  let remaining := headers.get "x-ratelimit-remaining"
  let reset := headers.get "x-ratelimit-reset"
  let st1 :=
    match remaining with
    | some (.str s) => { st with rateLimitRemaining := some (parseIntJS s) }
    | _ => st
  match reset with
  | some (.str s) => { st1 with rateLimitReset := some (newDate ((parseIntJS s).mulInt 1000)) }
  | _ => st1

/-- `IntervalsClient.handleError` (src/client.ts): the duplicate of
`ErrorHandler.handleError`, reading `this.rateLimitReset`. -/
def IntervalsClient.handleError (st : ClientRateState) (error : AxiosError) :
    Except String IntervalsAPIError :=
  match error.response with
  | some response =>
    let status := response.status
    let message := jsOrStr response.dataMessage error.message
    if status = 429 then
      match st.rateLimitReset with
      | some resetTime =>
        match resetTime.toISOString with
        | .error e => .error e
        | .ok iso =>
          .ok ⟨"Rate limit exceeded. " ++ ("Resets at " ++ iso), some status,
            some "RATE_LIMIT_EXCEEDED"⟩
      | none =>
        .ok ⟨"Rate limit exceeded. " ++ "", some status, some "RATE_LIMIT_EXCEEDED"⟩
    else if status = 401 then
      .ok ⟨"Invalid API key or authentication failed", some status, some "AUTH_FAILED"⟩
    else if status = 404 then
      .ok ⟨"Resource not found", some status, some "NOT_FOUND"⟩
    else
      .ok ⟨message, some status, none⟩
  | none =>
    if error.code = some "ECONNABORTED" then
      .ok ⟨"Request timeout", none, some "TIMEOUT"⟩
    else
      .ok ⟨jsOrStr (some error.message) "Unknown error occurred", none, none⟩

/-- `IntervalsConfig` (src/types.ts): the construction-time configuration. -/
structure IntervalsConfig where
  apiKey : String
  athleteId : Option String := none
  baseURL : Option String := none
  timeout : Option Int := none

/-- `config.baseURL || 'https://intervals.icu/api/v1'` from both constructors. -/
def effectiveBaseURL (config : IntervalsConfig) : String :=
  jsOrStr config.baseURL "https://intervals.icu/api/v1"

/-- `config.timeout || 10000` from both constructors. -/
def effectiveTimeout (config : IntervalsConfig) : Int :=
  jsOrInt config.timeout 10000

/-- `config.athleteId || 'me'` from both constructors. -/
def effectiveAthleteId (config : IntervalsConfig) : String :=
  jsOrStr config.athleteId "me"

/-- The default headers installed by `AxiosHttpClient`'s constructor
(src/core/axios-http-client.ts): `Basic` auth over
`base64("API_KEY:" + apiKey)` plus a JSON content type. -/
def AxiosHttpClient.defaultHeaders (config : IntervalsConfig) : List (String × String) :=
  let authString := "API_KEY:" ++ config.apiKey
  let encodedAuth := base64Encode (utf8Bytes authString)
  [("Authorization", "Basic " ++ encodedAuth), ("Content-Type", "application/json")]

/-- The default headers installed by `IntervalsClient`'s constructor
(src/client.ts), built inline with `Buffer.from(...).toString('base64')`. -/
def IntervalsClient.defaultHeaders (config : IntervalsConfig) : List (String × String) :=
  [("Authorization",
     "Basic " ++ base64Encode (utf8Bytes ("API_KEY:" ++ config.apiKey))),
   ("Content-Type", "application/json")]

/-- Modelled from the spec: the Transport Adapter attaches the instance's
default headers, built once at construction, to every issued request (the
header-merging behavior of the underlying HTTP engine, which is outside the
repository). Per-request headers are appended to the instance defaults. -/
def sentHeaders (config : IntervalsConfig) (perRequest : List (String × String)) :
    List (String × String) :=
  AxiosHttpClient.defaultHeaders config ++ perRequest

/-- `const id = athleteId || this.defaultAthleteId` as every service method
resolves its per-call athlete argument (e.g. src/services/event.service.ts). -/
def resolveAthleteId (athleteId : Option String) (defaultAthleteId : String) : String :=
  jsOrStr athleteId defaultAthleteId

/-- The URL built by `EventService.getEvents`: `/athlete/${id}/events`. -/
def EventService.getEventsUrl (defaultAthleteId : String) (athleteId : Option String) :
    String :=
  "/athlete/" ++ resolveAthleteId athleteId defaultAthleteId ++ "/events"

/-- Does `hay` start with `needle`? -/
def listStarts (hay needle : List Char) : Bool :=
  match needle, hay with
  | [], _ => true
  | _ :: _, [] => false
  | b :: bs, a :: as => a == b && listStarts as bs

/-- Does `hay` contain `needle` as a contiguous run? -/
def listHas (hay needle : List Char) : Bool :=
  match hay with
  | [] => listStarts [] needle
  | _ :: t => listStarts hay needle || listHas t needle

/-- Substring containment on strings, via their character lists. -/
def strContains (hay needle : String) : Bool :=
  listHas hay.data needle.data

theorem listStarts_append_self (n : List Char) : ∀ t : List Char, listStarts (n ++ t) n = true := by
  induction n with
  | nil => intro t; simp [listStarts]
  | cons b bs ih => intro t; simp [listStarts, ih]

theorem listStarts_self (n : List Char) : listStarts n n = true := by
  have h := listStarts_append_self n []
  rwa [List.append_nil] at h

theorem listHas_of_starts (hay needle : List Char) (h : listStarts hay needle = true) :
    listHas hay needle = true := by
  cases hay with
  | nil => exact h
  | cons a t => simp [listHas, h]

theorem listHas_append_left (pre hay needle : List Char) (h : listHas hay needle = true) :
    listHas (pre ++ hay) needle = true := by
  induction pre with
  | nil => exact h
  | cons a t ih => simp [listHas, ih]

theorem updateFromHeaders_remaining (t : RateLimitTracker) (h : HttpHeaders) :
    (t.updateFromHeaders h).remaining =
      match h.get "x-ratelimit-remaining" with
      | some (.str s) => some (parseIntJS s)
      | _ => t.remaining := by
  simp only [RateLimitTracker.updateFromHeaders]
  rcases h.get "x-ratelimit-remaining" with _ | v
  · rcases h.get "x-ratelimit-reset" with _ | w
    · rfl
    · cases w <;> rfl
  · cases v <;> rcases h.get "x-ratelimit-reset" with _ | w <;> first | rfl | (cases w <;> rfl)

theorem updateFromHeaders_reset (t : RateLimitTracker) (h : HttpHeaders) :
    (t.updateFromHeaders h).reset =
      match h.get "x-ratelimit-reset" with
      | some (.str s) => some (newDate ((parseIntJS s).mulInt 1000))
      | _ => t.reset := by
  simp only [RateLimitTracker.updateFromHeaders]
  rcases h.get "x-ratelimit-remaining" with _ | v
  · rcases h.get "x-ratelimit-reset" with _ | w
    · rfl
    · cases w <;> rfl
  · cases v <;> rcases h.get "x-ratelimit-reset" with _ | w <;> first | rfl | (cases w <;> rfl)

/-- The last string-valued occurrence of `key` across a sequence of header
maps, threaded through an accumulator. -/
def lastStrHeader (key : String) : List HttpHeaders → Option String → Option String
  | [], acc => acc
  | h :: rest, acc =>
      lastStrHeader key rest
        (match h.get key with
         | some (.str s) => some s
         | _ => acc)

theorem lastStrHeader_acc (key : String) (hs : List HttpHeaders) :
    ∀ acc : Option String,
      lastStrHeader key hs acc =
        match lastStrHeader key hs none with
        | some s => some s
        | none => acc := by
  induction hs with
  | nil => intro acc; rfl
  | cons h rest ih =>
    intro acc
    simp only [lastStrHeader]
    rw [ih, ih (match h.get key with | some (.str s) => some s | _ => none)]
    rcases lastStrHeader key rest none with _ | s
    · rcases h.get key with _ | v
      · rfl
      · cases v <;> rfl
    · rfl

theorem observeResponses_remaining (hs : List HttpHeaders) :
    ∀ t : RateLimitTracker,
      (observeResponses t hs).remaining =
        match lastStrHeader "x-ratelimit-remaining" hs none with
        | some s => some (parseIntJS s)
        | none => t.remaining := by
  induction hs with
  | nil => intro t; rfl
  | cons h rest ih =>
    intro t
    have hstep : observeResponses t (h :: rest) = observeResponses (t.updateFromHeaders h) rest := rfl
    rw [hstep, ih]
    simp only [lastStrHeader]
    rw [updateFromHeaders_remaining]
    rcases hv : h.get "x-ratelimit-remaining" with _ | v
    · rfl
    · cases v with
      | str s =>
        rw [lastStrHeader_acc _ rest (some s)]
        rcases lastStrHeader "x-ratelimit-remaining" rest none with _ | u <;> rfl
      | other => rfl

theorem observeResponses_reset (hs : List HttpHeaders) :
    ∀ t : RateLimitTracker,
      (observeResponses t hs).reset =
        match lastStrHeader "x-ratelimit-reset" hs none with
        | some s => some (newDate ((parseIntJS s).mulInt 1000))
        | none => t.reset := by
  induction hs with
  | nil => intro t; rfl
  | cons h rest ih =>
    intro t
    have hstep : observeResponses t (h :: rest) = observeResponses (t.updateFromHeaders h) rest := rfl
    rw [hstep, ih]
    simp only [lastStrHeader]
    rw [updateFromHeaders_reset]
    rcases hv : h.get "x-ratelimit-reset" with _ | v
    · rfl
    · cases v with
      | str s =>
        rw [lastStrHeader_acc _ rest (some s)]
        rcases lastStrHeader "x-ratelimit-reset" rest none with _ | u <;> rfl
      | other => rfl

theorem handleError_agrees (e : AxiosError) (t : RateLimitTracker) (st : ClientRateState)
    (h : st.rateLimitReset = t.reset) :
    IntervalsClient.handleError st e = ErrorHandler.handleError e t := by
  simp only [IntervalsClient.handleError, ErrorHandler.handleError, RateLimitTracker.getReset, h]

theorem handleError_response (e : AxiosError) (r : AxiosResponse) (t : RateLimitTracker)
    (hresp : e.response = some r) :
    ErrorHandler.handleError e t =
      if r.status = 429 then
        match t.reset with
        | some ⟨.nan⟩ => .error "Invalid time value"
        | some ⟨.int ms⟩ =>
            .ok ⟨"Rate limit exceeded. " ++ ("Resets at " ++ isoOfMs ms), some r.status,
              some "RATE_LIMIT_EXCEEDED"⟩
        | none =>
            .ok ⟨"Rate limit exceeded. " ++ "", some r.status, some "RATE_LIMIT_EXCEEDED"⟩
      else if r.status = 401 then
        .ok ⟨"Invalid API key or authentication failed", some r.status, some "AUTH_FAILED"⟩
      else if r.status = 404 then
        .ok ⟨"Resource not found", some r.status, some "NOT_FOUND"⟩
      else
        .ok ⟨jsOrStr r.dataMessage e.message, some r.status, none⟩ := by
  simp only [ErrorHandler.handleError, hresp, RateLimitTracker.getReset, JSDate.toISOString]
  cases htr : t.reset with
  | none => rfl
  | some d =>
    cases d with
    | mk msn => cases msn <;> rfl

theorem handleError_noResponse (e : AxiosError) (t : RateLimitTracker)
    (hresp : e.response = none) :
    ErrorHandler.handleError e t =
      if e.code = some "ECONNABORTED" then
        .ok ⟨"Request timeout", none, some "TIMEOUT"⟩
      else
        .ok ⟨jsOrStr (some e.message) "Unknown error occurred", none, none⟩ := by
  simp only [ErrorHandler.handleError, hresp]

/-- A 429-status failure with no usable response body message. -/
def c1Error : AxiosError := ⟨some ⟨429, none, ⟨[]⟩⟩, none, "Request failed with status code 429"⟩

/-- A tracker state reached from the fresh tracker by one response whose
reset header is present but non-numeric: the stored reset is an Invalid Date. -/
def c1Tracker : RateLimitTracker :=
  RateLimitTracker.init.updateFromHeaders ⟨[("x-ratelimit-reset", .str "soon")]⟩

/-- C1, counterexample: with an Invalid-Date reset in the tracker (reachable
through a non-numeric reset header) and a 429 response, the error normalizer
does not return a Normalized Error at all — `toISOString` throws a
`RangeError` — so the claim's universal statement fails. -/
theorem C1_error_codes_cex :
    ErrorHandler.handleError c1Error c1Tracker = .error "Invalid time value" ∧
    ∀ err : IntervalsAPIError, ErrorHandler.handleError c1Error c1Tracker ≠ .ok err := by
  refine ⟨rfl, ?_⟩
  intro err h
  rw [show ErrorHandler.handleError c1Error c1Tracker = .error "Invalid time value" from rfl] at h
  exact Except.noConfusion h

/-- C1 (amended): for every failure carrying an HTTP response, provided the
tracker's stored reset is not an Invalid Date, both `ErrorHandler.handleError`
and the duplicated `IntervalsClient.handleError` return the same Normalized
Error; on status 401 it has code `AUTH_FAILED`, on 404 `NOT_FOUND`, on 429
`RATE_LIMIT_EXCEEDED`, and in each case its status equals the HTTP status. -/
theorem C1_error_codes (e : AxiosError) (r : AxiosResponse) (t : RateLimitTracker)
    (st : ClientRateState) (hresp : e.response = some r)
    (hreset : t.reset ≠ some ⟨JSNum.nan⟩) (hagree : st.rateLimitReset = t.reset) :
    (r.status = 401 → ErrorHandler.handleError e t =
        .ok ⟨"Invalid API key or authentication failed", some 401, some "AUTH_FAILED"⟩) ∧
    (r.status = 404 → ErrorHandler.handleError e t =
        .ok ⟨"Resource not found", some 404, some "NOT_FOUND"⟩) ∧
    (r.status = 429 → ∃ err : IntervalsAPIError, ErrorHandler.handleError e t = .ok err ∧
        err.code = some "RATE_LIMIT_EXCEEDED" ∧ err.status = some 429) ∧
    IntervalsClient.handleError st e = ErrorHandler.handleError e t := by
  refine ⟨?_, ?_, ?_, handleError_agrees e t st hagree⟩
  · intro h
    rw [handleError_response e r t hresp, h]
    simp
  · intro h
    rw [handleError_response e r t hresp, h]
    simp
  · intro h
    rw [handleError_response e r t hresp, h, if_pos rfl]
    cases htr : t.reset with
    | none => exact ⟨_, rfl, rfl, rfl⟩
    | some d =>
      cases d with
      | mk msn =>
        cases msn with
        | nan => exact absurd htr hreset
        | int ms => exact ⟨_, rfl, rfl, rfl⟩

/-- C1, witness: a concrete 401 failure against the fresh tracker. -/
theorem C1_error_codes_witness :
    ErrorHandler.handleError ⟨some ⟨401, none, ⟨[]⟩⟩, none, "boom"⟩ RateLimitTracker.init =
      .ok ⟨"Invalid API key or authentication failed", some 401, some "AUTH_FAILED"⟩ :=
  (C1_error_codes ⟨some ⟨401, none, ⟨[]⟩⟩, none, "boom"⟩ ⟨401, none, ⟨[]⟩⟩
    RateLimitTracker.init ⟨none, none⟩ rfl (by decide) rfl).1 rfl

/-- A tracker that already knows a remaining count of 98. -/
def c2Tracker : RateLimitTracker := ⟨some (.int 98), none⟩

/-- Headers whose remaining header is present but non-numeric. -/
def c2Headers : HttpHeaders := ⟨[("x-ratelimit-remaining", .str "abc")]⟩

/-- C2, counterexample: a present but non-numeric remaining header does not
leave the stored value unchanged — it overwrites it with `NaN`. -/
theorem C2_tolerant_headers_cex :
    parseIntJS "abc" = .nan ∧
    (c2Tracker.updateFromHeaders c2Headers).getRemaining = some JSNum.nan ∧
    (c2Tracker.updateFromHeaders c2Headers).getRemaining ≠ c2Tracker.getRemaining := by
  exact ⟨rfl, rfl, by decide⟩

/-- C2 (amended): a missing header, or one whose value is not a string,
leaves the corresponding stored field unchanged and raises no error; but a
header that is present as a string always overwrites the field with its
`parseInt` result — `NaN` (resp. an Invalid Date) when non-numeric. -/
theorem C2_tolerant_headers (t : RateLimitTracker) (h : HttpHeaders) :
    ((h.get "x-ratelimit-remaining" = none ∨ h.get "x-ratelimit-remaining" = some .other) →
      (t.updateFromHeaders h).getRemaining = t.getRemaining) ∧
    ((h.get "x-ratelimit-reset" = none ∨ h.get "x-ratelimit-reset" = some .other) →
      (t.updateFromHeaders h).getReset = t.getReset) ∧
    (∀ s, h.get "x-ratelimit-remaining" = some (.str s) →
      (t.updateFromHeaders h).getRemaining = some (parseIntJS s)) ∧
    (∀ s, h.get "x-ratelimit-reset" = some (.str s) →
      (t.updateFromHeaders h).getReset = some (newDate ((parseIntJS s).mulInt 1000))) := by
  refine ⟨?_, ?_, ?_, ?_⟩
  · intro hcase
    show (t.updateFromHeaders h).remaining = t.remaining
    rw [updateFromHeaders_remaining]
    rcases hcase with h1 | h1 <;> rw [h1]
  · intro hcase
    show (t.updateFromHeaders h).reset = t.reset
    rw [updateFromHeaders_reset]
    rcases hcase with h1 | h1 <;> rw [h1]
  · intro s hs
    show (t.updateFromHeaders h).remaining = some (parseIntJS s)
    rw [updateFromHeaders_remaining, hs]
  · intro s hs
    show (t.updateFromHeaders h).reset = some (newDate ((parseIntJS s).mulInt 1000))
    rw [updateFromHeaders_reset, hs]

/-- C2, witness: with no rate-limit headers at all, a known remaining count
of 5 is preserved. -/
theorem C2_tolerant_headers_witness :
    ((⟨some (JSNum.int 5), none⟩ : RateLimitTracker).updateFromHeaders ⟨[]⟩).getRemaining =
      (⟨some (JSNum.int 5), none⟩ : RateLimitTracker).getRemaining :=
  (C2_tolerant_headers ⟨some (JSNum.int 5), none⟩ ⟨[]⟩).1 (Or.inl rfl)

theorem strContains_rateLimitPhrase (tail : String) :
    strContains ("Rate limit exceeded. " ++ tail) "Rate limit exceeded" = true := by
  show listHas ("Rate limit exceeded. ".data ++ tail.data) "Rate limit exceeded".data = true
  have hsplit : "Rate limit exceeded. ".data = "Rate limit exceeded".data ++ ". ".data := by decide
  rw [hsplit, List.append_assoc]
  exact listHas_of_starts _ _ (listStarts_append_self _ _)

theorem strContains_resetTail (s : String) :
    strContains ("Rate limit exceeded. " ++ ("Resets at " ++ s)) s = true := by
  show listHas ("Rate limit exceeded. ".data ++ ("Resets at ".data ++ s.data)) s.data = true
  rw [← List.append_assoc]
  exact listHas_append_left _ _ _ (listHas_of_starts _ _ (listStarts_self _))

/-- A 429 failure with a response body message. -/
def c3Error : AxiosError :=
  ⟨some ⟨429, some "Too many requests", ⟨[]⟩⟩, none, "Request failed with status code 429"⟩

/-- A tracker whose reset became an Invalid Date via a non-numeric header. -/
def c3Tracker : RateLimitTracker :=
  RateLimitTracker.init.updateFromHeaders ⟨[("x-ratelimit-reset", .str "tomorrow")]⟩

/-- C3, counterexample: on a 429-bearing failure with a stored Invalid-Date
reset, the normalizer throws, so there exists no Normalized Error whose
message states "Rate limit exceeded" — the claim's universal statement over
all 429 failures is false. -/
theorem C3_rate_limit_message_cex :
    c3Error.response = some ⟨429, some "Too many requests", ⟨[]⟩⟩ ∧
    ErrorHandler.handleError c3Error c3Tracker = .error "Invalid time value" ∧
    ∀ err : IntervalsAPIError, ErrorHandler.handleError c3Error c3Tracker ≠ .ok err := by
  refine ⟨rfl, rfl, ?_⟩
  intro err h
  rw [show ErrorHandler.handleError c3Error c3Tracker = .error "Invalid time value" from rfl] at h
  exact Except.noConfusion h

/-- C3 (amended): on a 429-status failure, provided the tracker's stored
reset is not an Invalid Date: when it holds a valid reset timestamp the
Normalized Error's message contains both the phrase "Rate limit exceeded"
and that reset time rendered in ISO-8601 form; when no reset is known the
message still contains the phrase and omits the "Resets at" clause. (With an
Invalid-Date reset the normalizer throws and produces no message.) -/
theorem C3_rate_limit_message (e : AxiosError) (r : AxiosResponse) (t : RateLimitTracker)
    (hresp : e.response = some r) (hst : r.status = 429) :
    (∀ ms : Int, t.reset = some ⟨JSNum.int ms⟩ →
      ∃ err : IntervalsAPIError, ErrorHandler.handleError e t = .ok err ∧
        strContains err.message "Rate limit exceeded" = true ∧
        strContains err.message (isoOfMs ms) = true) ∧
    (t.reset = none →
      ∃ err : IntervalsAPIError, ErrorHandler.handleError e t = .ok err ∧
        strContains err.message "Rate limit exceeded" = true ∧
        strContains err.message "Resets at" = false) := by
  rw [handleError_response e r t hresp, hst, if_pos rfl]
  constructor
  · intro ms htr
    rw [htr]
    exact ⟨_, rfl, strContains_rateLimitPhrase _, strContains_resetTail _⟩
  · intro htr
    rw [htr]
    exact ⟨_, rfl, by decide, by decide⟩

/-- C3, witness: a 429 failure with a known reset of epoch second
1640000000 (stored as 1640000000000 ms). -/
theorem C3_rate_limit_message_witness :
    ∃ err : IntervalsAPIError,
      ErrorHandler.handleError ⟨some ⟨429, none, ⟨[]⟩⟩, none, "boom"⟩
        ⟨none, some ⟨JSNum.int 1640000000000⟩⟩ = .ok err ∧
      strContains err.message "Rate limit exceeded" = true ∧
      strContains err.message (isoOfMs 1640000000000) = true :=
  (C3_rate_limit_message ⟨some ⟨429, none, ⟨[]⟩⟩, none, "boom"⟩ ⟨429, none, ⟨[]⟩⟩
    ⟨none, some ⟨JSNum.int 1640000000000⟩⟩ rfl rfl).1 1640000000000 rfl

/-- C5: a failure with no response and transport code `ECONNABORTED`
normalizes to code `TIMEOUT`, absent status, and message "Request timeout". -/
theorem C5_timeout (e : AxiosError) (t : RateLimitTracker)
    (hresp : e.response = none) (hcode : e.code = some "ECONNABORTED") :
    ErrorHandler.handleError e t = .ok ⟨"Request timeout", none, some "TIMEOUT"⟩ := by
  rw [handleError_noResponse e t hresp, if_pos hcode]

/-- C5, witness: a concrete connection-abort failure. -/
theorem C5_timeout_witness :
    ErrorHandler.handleError ⟨none, some "ECONNABORTED", "timeout of 10000ms exceeded"⟩
      RateLimitTracker.init = .ok ⟨"Request timeout", none, some "TIMEOUT"⟩ :=
  C5_timeout ⟨none, some "ECONNABORTED", "timeout of 10000ms exceeded"⟩
    RateLimitTracker.init rfl rfl

/-- A 429 failure whose transport code is `ECONNABORTED`. -/
def c4Error : AxiosError :=
  ⟨some ⟨429, none, ⟨[]⟩⟩, some "ECONNABORTED", "timeout of 10000ms exceeded"⟩

/-- A tracker holding an Invalid Date reset, reached via a non-numeric header. -/
def c4Tracker : RateLimitTracker :=
  RateLimitTracker.init.updateFromHeaders ⟨[("x-ratelimit-reset", .str "later")]⟩

/-- C4, counterexample: a response-bearing failure that no rule normalizes —
with status 429 and an Invalid-Date reset stored, the normalizer throws
instead of returning, so "every response-bearing failure is normalized by a
status-based rule" fails as stated. -/
theorem C4_rule_order_cex :
    c4Error.response = some ⟨429, none, ⟨[]⟩⟩ ∧
    ∀ err : IntervalsAPIError, ErrorHandler.handleError c4Error c4Tracker ≠ .ok err := by
  refine ⟨rfl, ?_⟩
  intro err h
  rw [show ErrorHandler.handleError c4Error c4Tracker = .error "Invalid time value" from rfl] at h
  exact Except.noConfusion h

/-- C4 (amended): the rules apply first-match-first. For a response-bearing
failure the result never depends on the transport-level code; a Normalized
Error is produced whenever the status is not 429 or the stored reset is not
an Invalid Date (only the 429 rule with an Invalid-Date reset throws); it
always carries the HTTP status, is never `TIMEOUT`-coded, gets the
429/401/404 codes on those statuses and no code otherwise; with no response,
the timeout rule fires exactly on `ECONNABORTED` and the generic rule
otherwise. -/
theorem C4_rule_order (e : AxiosError) (r : AxiosResponse) (t : RateLimitTracker) :
    (e.response = some r →
      (∀ c, ErrorHandler.handleError { e with code := c } t = ErrorHandler.handleError e t) ∧
      (r.status ≠ 429 ∨ t.reset ≠ some ⟨JSNum.nan⟩ →
        ∃ err : IntervalsAPIError, ErrorHandler.handleError e t = .ok err) ∧
      (∀ err : IntervalsAPIError, ErrorHandler.handleError e t = .ok err →
        err.status = some r.status ∧ err.code ≠ some "TIMEOUT" ∧
        (r.status = 429 → err.code = some "RATE_LIMIT_EXCEEDED") ∧
        (r.status = 401 → err.code = some "AUTH_FAILED") ∧
        (r.status = 404 → err.code = some "NOT_FOUND") ∧
        (r.status ≠ 429 → r.status ≠ 401 → r.status ≠ 404 → err.code = none))) ∧
    (e.response = none →
      (e.code = some "ECONNABORTED" →
        ErrorHandler.handleError e t = .ok ⟨"Request timeout", none, some "TIMEOUT"⟩) ∧
      (e.code ≠ some "ECONNABORTED" →
        ErrorHandler.handleError e t =
          .ok ⟨jsOrStr (some e.message) "Unknown error occurred", none, none⟩)) := by
  constructor
  · intro hresp
    refine ⟨?_, ?_, ?_⟩
    · intro c
      rw [handleError_response { e with code := c } r t hresp, handleError_response e r t hresp]
    · intro hd
      rw [handleError_response e r t hresp]
      by_cases h429 : r.status = 429
      · have hreset : t.reset ≠ some ⟨JSNum.nan⟩ := by
          rcases hd with h | h
          · exact absurd h429 h
          · exact h
        rw [h429, if_pos rfl]
        cases htr : t.reset with
        | none => exact ⟨_, rfl⟩
        | some d =>
          cases d with
          | mk msn =>
            cases msn with
            | nan => exact absurd htr hreset
            | int ms => exact ⟨_, rfl⟩
      · rw [if_neg h429]
        by_cases h401 : r.status = 401
        · rw [if_pos h401]; exact ⟨_, rfl⟩
        · rw [if_neg h401]
          by_cases h404 : r.status = 404
          · rw [if_pos h404]; exact ⟨_, rfl⟩
          · rw [if_neg h404]; exact ⟨_, rfl⟩
    · intro err hok
      rw [handleError_response e r t hresp] at hok
      by_cases h429 : r.status = 429
      · rw [h429] at hok ⊢
        rw [if_pos rfl] at hok
        cases htr : t.reset with
        | none =>
          rw [htr] at hok
          injection hok with h
          subst h
          decide
        | some d =>
          cases d with
          | mk msn =>
            cases msn with
            | nan =>
              rw [htr] at hok
              exact Except.noConfusion hok
            | int ms =>
              rw [htr] at hok
              injection hok with h
              subst h
              refine ⟨rfl, ?_, fun _ => rfl, ?_, ?_, fun hh _ _ => absurd rfl hh⟩
              · show some "RATE_LIMIT_EXCEEDED" ≠ some "TIMEOUT"
                decide
              · intro hh; exact absurd hh (by decide)
              · intro hh; exact absurd hh (by decide)
      · by_cases h401 : r.status = 401
        · rw [h401] at hok ⊢
          rw [if_neg (by decide), if_pos rfl] at hok
          injection hok with h
          subst h
          decide
        · by_cases h404 : r.status = 404
          · rw [h404] at hok ⊢
            rw [if_neg (by decide), if_neg (by decide), if_pos rfl] at hok
            injection hok with h
            subst h
            decide
          · rw [if_neg h429, if_neg h401, if_neg h404] at hok
            injection hok with h
            subst h
            refine ⟨rfl, ?_, ?_, ?_, ?_, fun _ _ _ => rfl⟩
            · show (none : Option String) ≠ some "TIMEOUT"
              decide
            · intro hh; exact absurd hh h429
            · intro hh; exact absurd hh h401
            · intro hh; exact absurd hh h404
  · intro hresp
    constructor
    · intro hcode
      rw [handleError_noResponse e t hresp, if_pos hcode]
    · intro hcode
      rw [handleError_noResponse e t hresp, if_neg hcode]

/-- C4, witness: a 404 failure whose transport code is `ECONNABORTED` is
still normalized by a status rule (not the timeout rule), even while the
tracker holds an Invalid-Date reset. -/
theorem C4_rule_order_witness :
    ∃ err : IntervalsAPIError,
      ErrorHandler.handleError ⟨some ⟨404, none, ⟨[]⟩⟩, some "ECONNABORTED", "x"⟩
        c4Tracker = .ok err :=
  ((C4_rule_order ⟨some ⟨404, none, ⟨[]⟩⟩, some "ECONNABORTED", "x"⟩ ⟨404, none, ⟨[]⟩⟩
      c4Tracker).1 rfl).2.1 (Or.inl (by decide))

/-- A 500 failure whose response body carries a present but empty message. -/
def c6Error : AxiosError := ⟨some ⟨500, some "", ⟨[]⟩⟩, none, "socket hang up"⟩

/-- C6, counterexample: the response body's message field is present (the
empty string), yet the Normalized Error's message is the transport failure's
message, not the body's — `||` falls through on the falsy empty string. -/
theorem C6_generic_messages_cex :
    c6Error.response = some ⟨500, some "", ⟨[]⟩⟩ ∧
    ErrorHandler.handleError c6Error RateLimitTracker.init =
      .ok ⟨"socket hang up", some 500, none⟩ ∧
    ("socket hang up" : String) ≠ "" :=
  ⟨rfl, rfl, by decide⟩

/-- C6 (amended): for a response with a status other than 429/401/404, the
error has no code, status equal to the HTTP status, and message equal to the
body's message field when present and non-empty, otherwise the transport
failure's message; with no response and a non-timeout code, no code and no
status, and message equal to the failure's message, or "Unknown error
occurred" when that message is empty. -/
theorem C6_generic_messages (e : AxiosError) (r : AxiosResponse) (t : RateLimitTracker) :
    (e.response = some r → r.status ≠ 429 → r.status ≠ 401 → r.status ≠ 404 →
      (∀ m, r.dataMessage = some m → m ≠ "" →
        ErrorHandler.handleError e t = .ok ⟨m, some r.status, none⟩) ∧
      ((r.dataMessage = none ∨ r.dataMessage = some "") →
        ErrorHandler.handleError e t = .ok ⟨e.message, some r.status, none⟩)) ∧
    (e.response = none → e.code ≠ some "ECONNABORTED" →
      (e.message ≠ "" → ErrorHandler.handleError e t = .ok ⟨e.message, none, none⟩) ∧
      (e.message = "" →
        ErrorHandler.handleError e t = .ok ⟨"Unknown error occurred", none, none⟩)) := by
  constructor
  · intro hresp h429 h401 h404
    rw [handleError_response e r t hresp, if_neg h429, if_neg h401, if_neg h404]
    constructor
    · intro m hm hne
      rw [hm]
      simp [jsOrStr, hne]
    · intro hcase
      rcases hcase with h1 | h1 <;> rw [h1] <;> simp [jsOrStr]
  · intro hresp hcode
    rw [handleError_noResponse e t hresp, if_neg hcode]
    constructor
    · intro hne; simp [jsOrStr, hne]
    · intro heq; simp [jsOrStr, heq]

/-- C6, witness: a 500 response with a non-empty body message yields that
message verbatim. -/
theorem C6_generic_messages_witness :
    ErrorHandler.handleError ⟨some ⟨500, some "server exploded", ⟨[]⟩⟩, none, "Request failed"⟩
      RateLimitTracker.init = .ok ⟨"server exploded", some 500, none⟩ :=
  ((C6_generic_messages ⟨some ⟨500, some "server exploded", ⟨[]⟩⟩, none, "Request failed"⟩
      ⟨500, some "server exploded", ⟨[]⟩⟩ RateLimitTracker.init).1
    rfl (by decide) (by decide) (by decide)).1 "server exploded" rfl (by decide)

/-- C7, counterexample: after a valid remaining header of "98" followed by a
present but non-numeric one, the getter returns `NaN`, not the value of the
most recent response bearing a valid header. -/
theorem C7_last_write_wins_cex :
    (observeResponses RateLimitTracker.init
        [⟨[("x-ratelimit-remaining", .str "98")]⟩,
         ⟨[("x-ratelimit-remaining", .str "abc")]⟩]).getRemaining = some JSNum.nan ∧
    (some JSNum.nan ≠ some (JSNum.int 98)) :=
  ⟨rfl, by decide⟩

/-- C7 (amended): before any response both getters return `undefined`; after
any sequence of responses, each getter returns the `parseInt` of the most
recent response bearing a string-valued corresponding header (`NaN` when that
string is non-numeric), and is untouched by responses lacking one — in
particular remaining=98 then remaining=50 yields 50 (last-write-wins). -/
theorem C7_last_write_wins :
    RateLimitTracker.init.getRemaining = none ∧
    RateLimitTracker.init.getReset = none ∧
    (∀ (hs : List HttpHeaders) (t : RateLimitTracker),
      (observeResponses t hs).getRemaining =
        (match lastStrHeader "x-ratelimit-remaining" hs none with
         | some s => some (parseIntJS s)
         | none => t.getRemaining)) ∧
    (∀ (hs : List HttpHeaders) (t : RateLimitTracker),
      (observeResponses t hs).getReset =
        (match lastStrHeader "x-ratelimit-reset" hs none with
         | some s => some (newDate ((parseIntJS s).mulInt 1000))
         | none => t.getReset)) ∧
    (observeResponses RateLimitTracker.init
        [⟨[("x-ratelimit-remaining", .str "98")]⟩,
         ⟨[("x-ratelimit-remaining", .str "50")]⟩]).getRemaining = some (JSNum.int 50) := by
  refine ⟨rfl, rfl, ?_, ?_, rfl⟩
  · intro hs t
    exact observeResponses_remaining hs t
  · intro hs t
    exact observeResponses_reset hs t

/-- C8: each tracker field only ever moves from unknown to known — once a
getter returns a known value, no later sequence of header updates makes it
return `undefined` again. -/
theorem C8_monotone (hs : List HttpHeaders) (t : RateLimitTracker) :
    (t.getRemaining ≠ none → (observeResponses t hs).getRemaining ≠ none) ∧
    (t.getReset ≠ none → (observeResponses t hs).getReset ≠ none) := by
  constructor
  · intro h
    show (observeResponses t hs).remaining ≠ none
    rw [observeResponses_remaining hs t]
    rcases lastStrHeader "x-ratelimit-remaining" hs none with _ | s
    · exact h
    · simp
  · intro h
    show (observeResponses t hs).reset ≠ none
    rw [observeResponses_reset hs t]
    rcases lastStrHeader "x-ratelimit-reset" hs none with _ | s
    · exact h
    · simp

/-- C8, witness: a known remaining count of 7 survives a later response with
a non-numeric remaining header (it becomes `NaN`, never `undefined`). -/
theorem C8_monotone_witness :
    (observeResponses ⟨some (JSNum.int 7), none⟩
        [⟨[("x-ratelimit-remaining", .str "abc")]⟩]).getRemaining ≠ none :=
  (C8_monotone [⟨[("x-ratelimit-remaining", .str "abc")]⟩]
    ⟨some (JSNum.int 7), none⟩).1 (by decide)

/-- C9: both constructors build, once, an `Authorization` header equal to
`"Basic " ++ base64(utf8("API_KEY:" ++ apiKey))` together with a JSON
content-type header, and these instance defaults go out on every request;
concretely, for api key "k" the credential is `Basic QVBJX0tFWTpr`. -/
theorem C9_auth_header (config : IntervalsConfig) (perRequest : List (String × String)) :
    (AxiosHttpClient.defaultHeaders config).lookup "Authorization" =
      some ("Basic " ++ base64Encode (utf8Bytes ("API_KEY:" ++ config.apiKey))) ∧
    (AxiosHttpClient.defaultHeaders config).lookup "Content-Type" =
      some "application/json" ∧
    IntervalsClient.defaultHeaders config = AxiosHttpClient.defaultHeaders config ∧
    ("Authorization", "Basic " ++ base64Encode (utf8Bytes ("API_KEY:" ++ config.apiKey)))
      ∈ sentHeaders config perRequest ∧
    base64Encode (utf8Bytes "API_KEY:k") = "QVBJX0tFWTpr" := by
  refine ⟨rfl, rfl, rfl, ?_, by decide⟩
  simp [sentHeaders, AxiosHttpClient.defaultHeaders]

/-- C10: present-but-falsy configuration values fall back to the defaults
through `||`: timeout 0 becomes 10000, an empty baseURL becomes the public
endpoint, an empty athleteId becomes "me", and an empty per-call athleteId
resolves to the configured default in service paths. -/
theorem C10_falsy_defaults (c : IntervalsConfig) (d : String) :
    effectiveTimeout { c with timeout := some 0 } = 10000 ∧
    effectiveBaseURL { c with baseURL := some "" } = "https://intervals.icu/api/v1" ∧
    effectiveAthleteId { c with athleteId := some "" } = "me" ∧
    resolveAthleteId (some "") d = d ∧
    EventService.getEventsUrl d (some "") = "/athlete/" ++ d ++ "/events" := by
  refine ⟨rfl, rfl, rfl, rfl, rfl⟩

end IntervalsIcu
